import Mathlib

/-!
Verification of the TP2_Open_Data ETL pipeline core (`src/pipeline/fetcher.py`,
`src/pipeline/transformer.py`, `src/pipeline/config.py`) against its
natural-language specification.

The embedding is shallow: the Python functions are translated into executable
Lean definitions.  Pandas DataFrames become lists of named, dtype-tagged
columns of cells; machine floats become exact rationals (the single genuinely
floating-point quantity, the standard deviation used by the outlier-clipping
rule, is abstracted as an explicit function parameter `sigma`); Python
exceptions become `Except` results; the HTTP layer and the tenacity retry
decorator become functions over an explicit stream of attempt/page outcomes.
-/

namespace TP2

/-- Scalar or list value held in an API record / DataFrame cell.
`null` models Python `None` / pandas `NaN`; `num` models int/float values
(as exact rationals); `list` models the tag lists returned by the API
(lists of strings). -/
inductive Cell where
  | null : Cell
  | str (s : String) : Cell
  | num (q : ℚ) : Cell
  | list (l : List String) : Cell
deriving DecidableEq

/-- One raw product entry, a JSON object: mapping field name to value
(spec section 3, "Record"). -/
def Record : Type := List (String × Cell)

instance : DecidableEq Record := by
  unfold Record
  infer_instance

/-! ## Configuration (src/pipeline/config.py) -/

/-- Configured page size (config.py: `PAGE_SIZE = 100`). -/
def PAGE_SIZE : Nat := 100

/-- Configured maximum number of pages (config.py: `MAX_PAGES = 10`). -/
def MAX_PAGES : Nat := 10

/-! ## Single-page retry (src/pipeline/fetcher.py, `fetch_page`)

`fetch_page` performs one HTTP GET; the tenacity decorator
`@retry(stop=stop_after_attempt(3), wait=wait_exponential(multiplier=1, min=2, max=10),
retry=retry_if_exception_type((httpx.HTTPError, httpx.TimeoutException)), reraise=True)`
re-runs it on retryable exceptions.  We model the underlying HTTP attempt
outcomes as a stream indexed by 1-based attempt number. -/

/-- Outcome of one underlying HTTP attempt inside `fetch_page`.
`statusErr` is `httpx.HTTPStatusError` raised by `response.raise_for_status()`
(carrying the HTTP status code), `timeoutErr` is `httpx.TimeoutException`,
`transportErr` is any other `httpx.HTTPError` (network/transport failure),
`otherErr` is any non-httpx exception (e.g. JSON decoding). -/
inductive Attempt where
  | ok : Attempt
  | statusErr (code : Nat) : Attempt
  | timeoutErr : Attempt
  | transportErr : Attempt
  | otherErr : Attempt
deriving DecidableEq

/-- Exceptions matched by `retry_if_exception_type((httpx.HTTPError, httpx.TimeoutException))`.
In httpx's exception hierarchy `HTTPStatusError` and `TimeoutException` are both
subclasses of `HTTPError`, so HTTP status errors (4xx/5xx) are retryable too;
only non-httpx exceptions are not. -/
def retryableExc : Attempt → Bool
  | .statusErr _ => true
  | .timeoutErr => true
  | .transportErr => true
  | _ => false

/-- Wait computed by tenacity `wait_exponential(multiplier=1, min=2, max=10)` after
the failed attempt numbered `attemptNumber`: `multiplier * 2 ^ attemptNumber`
clamped into `[min, max]`, in seconds. -/
def waitExponential (attemptNumber : Nat) : Nat :=
  max 2 (min (2 ^ attemptNumber) 10)

/-- Tenacity `stop_after_attempt(3)` bound. -/
def stop_after_attempt : Nat := 3

deriving instance DecidableEq for Except

/-- Result of running `fetch_page` under the retry decorator: the final result
(`.error e` means exception `e` escapes, `reraise=True`), the number of HTTP
attempts actually issued, and the waits (in seconds) slept between attempts. -/
structure RetryRun where
  result : Except Attempt Unit
  attempts : Nat
  waits : List Nat
deriving DecidableEq

/-- Retry loop of the tenacity decorator on `fetch_page`: run the attempt; on
success return; on a retryable exception with attempts remaining, wait and
retry; otherwise re-raise the exception (`reraise=True`).  `remaining` is the
number of attempts still allowed, `n` the 1-based number of this attempt. -/
def retryLoop (env : Nat → Attempt) : (remaining : Nat) → (n : Nat) → RetryRun
  | 0, _ => { result := .error .otherErr, attempts := 0, waits := [] }
  | remaining + 1, n =>
    match env n with
    | .ok => { result := .ok (), attempts := 1, waits := [] }
    | e =>
      if retryableExc e && remaining != 0 then
        let rest := retryLoop env remaining (n + 1)
        { result := rest.result
          attempts := rest.attempts + 1
          waits := waitExponential n :: rest.waits }
      else
        { result := .error e, attempts := 1, waits := [] }

/-- Model of `fetch_page` (fetcher.py lines 16-56) as seen through its retry
decorator, over a stream of attempt outcomes. -/
def fetch_page (env : Nat → Attempt) : RetryRun :=
  retryLoop env stop_after_attempt 1

/-! ## Pagination (src/pipeline/fetcher.py, `fetch_all_data`) -/

/-- Outcome of one `fetch_page("/search", params)` call for a given page, as
observed by `fetch_all_data` (i.e. after the retry decorator has resolved):
a successful JSON body with its `products` array, an `httpx.HTTPStatusError`
escaping with some status code, or any other exception. -/
inductive PageResult where
  | success (products : List Record) : PageResult
  | httpError (status : Nat) : PageResult
  | otherError : PageResult
deriving DecidableEq

/-- Accumulated outcome of the pagination loop: the records gathered and the
number of page requests (i.e. `fetch_page` calls) issued. -/
structure FetchRun where
  records : List Record
  requests : Nat
deriving DecidableEq

/-- Pagination loop body of `fetch_all_data` (fetcher.py lines 75-106):
iterate pages; an empty `products` array breaks; an HTTP status error of 404
breaks, any other status error skips the page (`continue`); any other
exception also skips the page.  `remaining` is the number of page numbers left
in `range(1, MAX_PAGES + 1)`. -/
def fetchPages (env : Nat → PageResult) : (page : Nat) → (remaining : Nat) → FetchRun
  | _, 0 => { records := [], requests := 0 }
  | page, remaining + 1 =>
    match env page with
    | .success products =>
      if products = [] then
        { records := [], requests := 1 }
      else
        let rest := fetchPages env (page + 1) remaining
        { records := products ++ rest.records, requests := rest.requests + 1 }
    | .httpError status =>
      if status = 404 then
        { records := [], requests := 1 }
      else
        let rest := fetchPages env (page + 1) remaining
        { records := rest.records, requests := rest.requests + 1 }
    | .otherError =>
      let rest := fetchPages env (page + 1) remaining
      { records := rest.records, requests := rest.requests + 1 }

/-- Model of `fetch_all_data` (fetcher.py lines 59-112): run the pagination
loop over pages 1..MAX_PAGES, then raise `ValueError` ("Aucune donnée
récupérée…", the spec's `NoDataError`) when no records were accumulated.
The second component is the number of page requests issued. -/
def fetch_all_data (env : Nat → PageResult) : Except String (List Record) × Nat :=
  let run := fetchPages env 1 MAX_PAGES
  (if run.records = [] then .error "Aucune donnée récupérée" else .ok run.records,
   run.requests)

/-! ## Spec-side notions for pagination -/

/-- Length of the run of consecutive non-empty pages starting at `page`,
looking at most `remaining` page numbers ahead (spec: "consecutive non-empty
pages ... from page 1 until the first empty page or the configured max-page
limit"). -/
def nonemptyRun (counts : Nat → Nat) : (page : Nat) → (remaining : Nat) → Nat
  | _, 0 => 0
  | page, remaining + 1 =>
    if counts page = 0 then 0 else nonemptyRun counts (page + 1) remaining + 1

/-- Sum of `counts` over the `len` consecutive pages starting at `page`. -/
def prefixSum (counts : Nat → Nat) : (page : Nat) → (len : Nat) → Nat
  | _, 0 => 0
  | page, len + 1 => counts page + prefixSum counts (page + 1) len

/-- Page environment of the spec scenario "[10 items, 10 items, 10 items,
0 items]": pages 1-3 carry 10 products each, page 4 is empty. -/
def scenarioPages : Nat → PageResult := fun page =>
  if page ≤ 3 then .success (List.replicate 10 [("page", Cell.num page)])
  else .success []

/-- Page environment with an empty first page but a non-empty second page. -/
def C1badPages : Nat → PageResult := fun page =>
  if page = 2 then .success [[("id", Cell.num 1)]] else .success []

/-! ## DataFrame model (for src/pipeline/transformer.py)

Pandas DataFrames are modeled as lists of named columns of cells, each column
tagged with the pandas dtype class relevant to `clean_dataframe`:
`select_dtypes(include=["object", "string"])` selects `object` columns,
`select_dtypes(include=["number"])` selects `numeric` ones, and the
`pd.Categorical` conversion produces `categorical` ones (selected by
neither). -/

/-- Cell classifier: Python `None` / pandas `NaN`. -/
def Cell.isNull : Cell → Bool
  | .null => true
  | _ => false

/-- Cell classifier: string value. -/
def Cell.isStr : Cell → Bool
  | .str _ => true
  | _ => false

/-- Cell classifier: numeric value. -/
def Cell.isNum : Cell → Bool
  | .num _ => true
  | _ => false

/-- Cell classifier: list value. -/
def Cell.isList : Cell → Bool
  | .list _ => true
  | _ => false

/-- Pandas column dtype, as far as `clean_dataframe` distinguishes dtypes. -/
inductive Dtype where
  | object : Dtype
  | numeric : Dtype
  | categorical : Dtype
deriving DecidableEq

/-- One named DataFrame column. -/
structure Col where
  name : String
  dtype : Dtype
  cells : List Cell
deriving DecidableEq

/-- A DataFrame: a row count plus named columns (the explicit row count
mirrors pandas row indexes, which exist even for a frame with zero columns). -/
structure DF where
  nrows : Nat
  cols : List Col
deriving DecidableEq

/-- Well-formedness of a column's dtype tag: a numeric (float64/int64) column
holds only numbers and NaN; a categorical one only strings and NaN; an object
column holds anything. -/
def Col.wfDtype (c : Col) : Prop :=
  match c.dtype with
  | .numeric => ∀ x ∈ c.cells, x.isNull || x.isNum
  | .categorical => ∀ x ∈ c.cells, x.isNull || x.isStr
  | .object => True

instance (c : Col) : Decidable c.wfDtype := by
  unfold Col.wfDtype
  cases c.dtype <;> infer_instance

/-- Well-formedness of a DataFrame: every column has `nrows` cells, column
names are distinct (pandas label-based access assumes this throughout
`clean_dataframe`), and dtype tags are consistent. -/
def DF.wf (df : DF) : Prop :=
  (∀ c ∈ df.cols, c.cells.length = df.nrows)
  ∧ (df.cols.map Col.name).Nodup
  ∧ ∀ c ∈ df.cols, c.wfDtype

instance (df : DF) : Decidable df.wf := by
  unfold DF.wf
  infer_instance

/-- Pandas `df.empty`: true when either axis has length zero. -/
def DF.empty (df : DF) : Bool :=
  df.nrows = 0 || df.cols.isEmpty

/-! ## Python string primitives used by the cleaning rules -/

/-- Lower-casing of one character as Python `str.lower` does on the ASCII
range, written as the explicit letter table (non-ASCII case mappings live in
a unicode table not modeled here, and no claim depends on them). -/
def pyLowerChar (c : Char) : Char :=
  match c with
  | 'A' => 'a'
  | 'B' => 'b'
  | 'C' => 'c'
  | 'D' => 'd'
  | 'E' => 'e'
  | 'F' => 'f'
  | 'G' => 'g'
  | 'H' => 'h'
  | 'I' => 'i'
  | 'J' => 'j'
  | 'K' => 'k'
  | 'L' => 'l'
  | 'M' => 'm'
  | 'N' => 'n'
  | 'O' => 'o'
  | 'P' => 'p'
  | 'Q' => 'q'
  | 'R' => 'r'
  | 'S' => 's'
  | 'T' => 't'
  | 'U' => 'u'
  | 'V' => 'v'
  | 'W' => 'w'
  | 'X' => 'x'
  | 'Y' => 'y'
  | 'Z' => 'z'
  | c => c

/-- Python `str.lower` (ASCII model). -/
def pyLower (s : String) : String :=
  ⟨s.data.map pyLowerChar⟩

/-- Drop leading whitespace characters. -/
def stripLeading (l : List Char) : List Char :=
  l.dropWhile Char.isWhitespace

/-- Drop trailing whitespace characters. -/
def stripTrailing (l : List Char) : List Char :=
  (l.reverse.dropWhile Char.isWhitespace).reverse

/-- Python `str.strip()`: drop leading and trailing whitespace. -/
def pyStrip (s : String) : String :=
  ⟨stripTrailing (stripLeading s.data)⟩

/-- Python `str()` of a cell value, as used by `astype(str)` and the
list-flattening rule: `str(nan) = "nan"`, strings render as themselves,
numbers as their decimal digits (the model does not track Python's int/float
distinction, so the `.0` suffix of float rendering is elided; no proved claim
evaluates this on a number), lists as a bracketed comma-separated rendering. -/
def pyStr : Cell → String
  | .null => "nan"
  | .str s => s
  | .num q => if q.den = 1 then toString q.num else toString q
  | .list l => "[" ++ String.intercalate ", " l ++ "]"

/-- Digit-string value, `none` when empty or not all digits. -/
def digitsToNat : List Char → Option Nat
  | [] => none
  | l =>
    if l.all Char.isDigit then
      some (l.foldl (fun n c => n * 10 + (c.toNat - 48)) 0)
    else none

/-- Decimal number strings accepted by `pd.to_numeric` / Python `float()`:
optional sign, integer digits and/or a fractional part (scientific notation
and inf/nan spellings are not modeled; no proved claim depends on them). -/
def parseDecimal (s : String) : Option ℚ :=
  let core : List Char → Option ℚ := fun cs =>
    let intPart := cs.takeWhile (fun c => c ≠ '.')
    let rest := cs.dropWhile (fun c => c ≠ '.')
    match rest with
    | [] => (digitsToNat intPart).map (fun n => (n : ℚ))
    | _ :: fs =>
      if fs.elem '.' then none
      else
        match intPart, fs with
        | [], [] => none
        | [], _ => (digitsToNat fs).map (fun n => (n : ℚ) / 10 ^ fs.length)
        | _, [] => (digitsToNat intPart).map (fun n => (n : ℚ))
        | _, _ => do
          let i ← digitsToNat intPart
          let f ← digitsToNat fs
          pure ((i : ℚ) + (f : ℚ) / 10 ^ fs.length)
  match (pyStrip s).data with
  | '-' :: cs => (core cs).map Neg.neg
  | '+' :: cs => core cs
  | cs => core cs

/-! ## Statistics used by the cleaning rules -/

/-- Non-null numeric values of a column, in order (pandas `skipna=True`). -/
def numVals (cells : List Cell) : List ℚ :=
  cells.filterMap fun c =>
    match c with
    | .num q => some q
    | _ => none

/-- Median as computed by `Series.median()`: middle of the sorted non-null
values (mean of the two middles for an even count); `none` (NaN) when there
are no non-null values. -/
def median (cells : List Cell) : Option ℚ :=
  let xs := (numVals cells).insertionSort (· ≤ ·)
  let n := xs.length
  if n = 0 then none
  else if n % 2 = 1 then some (xs.getD (n / 2) 0)
  else some ((xs.getD (n / 2 - 1) 0 + xs.getD (n / 2) 0) / 2)

/-- Mean of the non-null values, as `Series.mean()`; `none` (NaN) when there
are none. -/
def cellsMean (cells : List Cell) : Option ℚ :=
  let xs := numVals cells
  if xs.length = 0 then none
  else some (xs.sum / (xs.length : ℚ))

/-- Sample variance (ddof = 1) of the non-null values, the square of
`Series.std()`; `none` (NaN std) when fewer than two values. -/
def sampleVar (cells : List Cell) : Option ℚ :=
  let xs := numVals cells
  if xs.length < 2 then none
  else
    let m := xs.sum / (xs.length : ℚ)
    some ((xs.map (fun x => (x - m) ^ 2)).sum / ((xs.length - 1 : Nat) : ℚ))

/-! ## The cleaning rules (src/pipeline/transformer.py, `clean_dataframe`) -/

/-- Python exceptions that can escape `clean_dataframe`: `KeyError` from
`drop_duplicates(subset=["code"])` when there is no `code` column, and
`TypeError` from hashing or numerically coercing unhashable list values. -/
inductive CleanError where
  | keyError : CleanError
  | typeError : CleanError
deriving DecidableEq

/-- Keep-first mask underlying `drop_duplicates(subset=["code"], keep="first")`:
entry i is true iff the i-th code does not occur earlier (pandas `duplicated`
treats NaN as equal to NaN, matching cell equality here). -/
def keepFirstMask (seen : List Cell) : List Cell → List Bool
  | [] => []
  | c :: rest => (! decide (c ∈ seen)) :: keepFirstMask (c :: seen) rest

/-- Filter a cell list by a row mask. -/
def applyMask : List Bool → List Cell → List Cell
  | b :: ms, c :: cs => if b then c :: applyMask ms cs else applyMask ms cs
  | _, _ => []

/-- Restriction of one column to the rows kept by a row mask. -/
def maskCol (mask : List Bool) (c : Col) : Col :=
  { c with cells := applyMask mask c.cells }

/-- Step 1 of `clean_dataframe` (lines 148-153):
`drop_duplicates(subset=["code"], keep="first")`.  A missing `code` column
raises `KeyError`; an unhashable (list) value in it raises `TypeError`. -/
def dropDuplicatesByCode (df : DF) : Except CleanError DF :=
  match df.cols.find? (fun c => c.name = "code") with
  | none => .error .keyError
  | some codeCol =>
    if codeCol.cells.any Cell.isList then .error .typeError
    else
      let mask := keepFirstMask [] codeCol.cells
      .ok { nrows := mask.count true
            cols := df.cols.map (maskCol mask) }

/-- Fill value for missing text (line 161): the fixed sentinel string. -/
def sentinel : String := "Non renseigné"

/-- Fill applied to one cell of a text column: `fillna("Non renseigné")`. -/
def fillTextCell (c : Cell) : Cell :=
  if c = .null then .str sentinel else c

/-- Step 2a on one column: the fill applies exactly to object/string-dtype
columns (`select_dtypes(include=["object", "string"])`). -/
def fillTextCol (c : Col) : Col :=
  if c.dtype = .object then { c with cells := c.cells.map fillTextCell } else c

/-- Step 2a (lines 156-162): for every object/string-dtype column, replace
null entries by the sentinel. -/
def fillTextCols (df : DF) : DF :=
  { df with cols := df.cols.map fillTextCol }

/-- Fill applied to a numeric column (lines 165-175): `fillna(median)`, or
`fillna(0)` when the median itself is NaN. -/
def fillNumCells (cells : List Cell) : List Cell :=
  let m := (median cells).getD 0
  cells.map fun c => if c = .null then .num m else c

/-- Step 2b on one column: applies exactly to numeric-dtype columns
(`select_dtypes(include=["number"])`). -/
def fillNumCol (c : Col) : Col :=
  if c.dtype = .numeric then { c with cells := fillNumCells c.cells } else c

/-- Step 2b (lines 164-175): for every numeric-dtype column, fill nulls with
the column median (0 when the median is undefined). -/
def fillNumCols (df : DF) : DF :=
  { df with cols := df.cols.map fillNumCol }

/-- Columns normalized by step 3 (line 178). -/
def text_cols_to_normalize : List String :=
  ["product_name", "brands", "categories"]

/-- Normalization applied cellwise (line 181):
`astype(str).str.strip().str.lower()`. -/
def normalizeCell (c : Cell) : Cell :=
  .str (pyLower (pyStrip (pyStr c)))

/-- Step 3 on one column: applies when the column is one of the normalize
targets. -/
def normalizeTextCol (c : Col) : Col :=
  if c.name ∈ text_cols_to_normalize then
    { c with dtype := .object, cells := c.cells.map normalizeCell }
  else c

/-- Step 3 (lines 177-182): normalize the specific textual columns present. -/
def normalizeTextCols (df : DF) : DF :=
  { df with cols := df.cols.map normalizeTextCol }

/-- Step 4a on one column: `astype(str)` of the `code` column. -/
def codeToStrCol (c : Col) : Col :=
  if c.name = "code" then
    { c with dtype := .object, cells := c.cells.map fun x => .str (pyStr x) }
  else c

/-- Step 4a (lines 186-187): `df_clean["code"] = df_clean["code"].astype(str)`. -/
def codeToStr (df : DF) : DF :=
  { df with cols := df.cols.map codeToStrCol }

/-- Ordered categorical domain of step 4b (line 193).  Note the lower-case
"non renseigné", which differs from the fill sentinel "Non renseigné". -/
def nutriscoreDomain : List String :=
  ["a", "b", "c", "d", "e", "non renseigné"]

/-- Conversion of one cell by `pd.Categorical(values, categories=...)`:
values outside the category domain become NaN. -/
def toCategoricalCell (c : Cell) : Cell :=
  match c with
  | .str s => if s ∈ nutriscoreDomain then .str s else .null
  | _ => .null

/-- Step 4b on one column: the categorical conversion of `nutriscore_grade`. -/
def nutriscoreCol (c : Col) : Col :=
  if c.name = "nutriscore_grade" then
    { c with dtype := .categorical, cells := c.cells.map toCategoricalCell }
  else c

/-- Step 4b (lines 190-195): convert `nutriscore_grade` to an ordered
categorical.  Unhashable (list) values raise `TypeError`. -/
def nutriscoreToCategorical (df : DF) : Except CleanError DF :=
  if df.cols.any (fun c => c.name = "nutriscore_grade" && c.cells.any Cell.isList) then
    .error .typeError
  else
    .ok { df with cols := df.cols.map nutriscoreCol }

/-- Nutritional columns cleaned by step 5 (line 198). -/
def numeric_cols_to_clean : List String :=
  ["energy_100g", "fat_100g", "sugars_100g", "salt_100g", "proteins_100g"]

/-- Conversion of one cell by `pd.to_numeric(..., errors="coerce")`: numbers
pass through, numeric strings parse, other strings coerce to NaN, NaN stays
NaN (list values raise `TypeError`; checked at the column level). -/
def toNumericCell : Cell → Cell
  | .num q => .num q
  | .str s =>
    match parseDecimal s with
    | some q => .num q
    | none => .null
  | _ => .null

/-- Clipping of negative values to 0 (lines 204-208); NaN comparisons are
false, so nulls are untouched. -/
def negClipCell (c : Cell) : Cell :=
  match c with
  | .num q => if q < 0 then .num 0 else c
  | c => c

/-- Outlier clipping (lines 210-221): when the column has a non-null value
and its std is defined (at least two non-null values) and positive, values
beyond mean ± 3*std are set to the nearer bound; NaN entries are untouched.
`sigma v` stands for the floating-point square root of the sample variance
`v` computed by `Series.std()`. -/
def outlierClipCells (sigma : ℚ → ℚ) (cells : List Cell) : List Cell :=
  match cellsMean cells, sampleVar cells with
  | some m, some v =>
    if 0 < sigma v then
      let lower := m - 3 * sigma v
      let upper := m + 3 * sigma v
      cells.map fun c =>
        match c with
        | .num q => if q < lower then .num lower else if upper < q then .num upper else .num q
        | c => c
    else cells
  | _, _ => cells

/-- Step 5 for one column's cells: coerce to numeric, clip negatives, clip
outliers. -/
def cleanNumericCells (sigma : ℚ → ℚ) (cells : List Cell) : List Cell :=
  outlierClipCells sigma ((cells.map toNumericCell).map negClipCell)

/-- Step 5 on one column: applies to the nutritional columns. -/
def cleanNumericCol (sigma : ℚ → ℚ) (c : Col) : Col :=
  if c.name ∈ numeric_cols_to_clean then
    { c with dtype := .numeric, cells := cleanNumericCells sigma c.cells }
  else c

/-- Step 5 (lines 197-221): clean the nutritional numeric columns present.
A list value in such a column makes `pd.to_numeric` raise `TypeError` even
under `errors="coerce"`. -/
def cleanNumericCols (sigma : ℚ → ℚ) (df : DF) : Except CleanError DF :=
  if df.cols.any (fun c => decide (c.name ∈ numeric_cols_to_clean) && c.cells.any Cell.isList) then
    .error .typeError
  else
    .ok { df with cols := df.cols.map (cleanNumericCol sigma) }

/-- Tag columns flattened by step 6 (line 224). -/
def list_cols : List String :=
  ["categories", "packaging_tags", "labels_tags", "countries_tags"]

/-- Flattening applied cellwise (lines 228-230): `", ".join(x)` when `x` is a
list, `str(x)` otherwise. -/
def flattenListCell (c : Cell) : Cell :=
  match c with
  | .list l => .str (String.intercalate ", " l)
  | c => .str (pyStr c)

/-- Step 6 on one column: applies to the tag/list columns. -/
def flattenListCol (c : Col) : Col :=
  if c.name ∈ list_cols then
    { c with dtype := .object, cells := c.cells.map flattenListCell }
  else c

/-- Step 6 (lines 223-230): flatten the tag/list columns present. -/
def flattenListCols (df : DF) : DF :=
  { df with cols := df.cols.map flattenListCol }

/-- Composite per-column action of steps 2-6 of `clean_dataframe` (each of
those steps acts on every column independently). -/
def cleanColSteps (sigma : ℚ → ℚ) (c : Col) : Col :=
  flattenListCol (cleanNumericCol sigma (nutriscoreCol (codeToStrCol
    (normalizeTextCol (fillNumCol (fillTextCol c))))))

/-- Model of `clean_dataframe` (transformer.py lines 116-236): return an empty
frame unchanged, then apply the ordered rules.  The `use_ai_suggestions`
branch only logs suggestions and never modifies the frame, so it is not
modeled; `sigma` abstracts the floating-point square root used for the
standard deviation in the outlier rule. -/
def clean_dataframe (sigma : ℚ → ℚ) (df : DF) : Except CleanError DF :=
  if df.empty then .ok df
  else do
    let df1 ← dropDuplicatesByCode df
    let df2 := fillNumCols (fillTextCols df1)
    let df3 := codeToStr (normalizeTextCols df2)
    let df4 ← nutriscoreToCategorical df3
    let df5 ← cleanNumericCols sigma df4
    pure (flattenListCols df5)

/-! ## Table construction (src/pipeline/transformer.py, `raw_to_dataframe`) -/

/-- Column labels of `pd.DataFrame(list_of_dicts)`: the union of the record
keys in first-occurrence order. -/
def recordKeys (raw : List Record) : List String :=
  raw.foldl
    (fun acc r =>
      r.foldl (fun acc2 kv => if acc2.contains kv.1 then acc2 else acc2 ++ [kv.1]) acc)
    []

/-- Value of field `k` in record `r`; a missing key becomes NaN. -/
def recordGet (r : Record) (k : String) : Cell :=
  match r.find? (fun kv => kv.1 = k) with
  | some kv => kv.2
  | none => .null

/-- Dtype inferred by pandas for a column built from Python values: numeric
(float64/int64) when every value is a number or None/NaN and at least one is a
number; object otherwise. -/
def inferDtype (cells : List Cell) : Dtype :=
  if cells.all (fun c => c.isNull || c.isNum) && cells.any Cell.isNum then .numeric
  else .object

/-- Model of `raw_to_dataframe` (transformer.py lines 13-29): an empty input
raises `ValueError` ("Aucune donnée à convertir"); otherwise the DataFrame
has one row per record and one column per distinct field key. -/
def raw_to_dataframe (raw : List Record) : Except String DF :=
  if raw = [] then .error "Aucune donnée à convertir"
  else
    .ok { nrows := raw.length
          cols := (recordKeys raw).map fun k =>
            let cells := raw.map fun r => recordGet r k
            { name := k, dtype := inferDtype cells, cells := cells } }


/-! ## Concrete tables used by scenario and counterexample theorems -/

/-- Input table of the text-fill scenario: a text column with one null value
among two rows (plus the `code` column the cleaner requires). -/
def C8df : DF :=
  { nrows := 2
    cols := [
      { name := "code", dtype := .object, cells := [.str "1", .str "2"] },
      { name := "ingredients_text", dtype := .object, cells := [.null, .str "Sugar"] }] }

/-- Text column of the scenario table `C8df`. -/
def C8textCol : Col :=
  { name := "ingredients_text", dtype := .object, cells := [.null, .str "Sugar"] }

/-- Cleaned form of `C8df`: the null is replaced by the sentinel, the other
value is untouched (no trim/lower rule applies to `ingredients_text`). -/
def C8dfCleaned : DF :=
  { nrows := 2
    cols := [
      { name := "code", dtype := .object, cells := [.str "1", .str "2"] },
      { name := "ingredients_text", dtype := .object,
        cells := [.str sentinel, .str "Sugar"] }] }

/-- Counterexample table for clean idempotence: a text-typed nutritional
column whose value is non-numeric. -/
def C3df : DF :=
  { nrows := 1
    cols := [
      { name := "code", dtype := .object, cells := [.str "1"] },
      { name := "energy_100g", dtype := .object, cells := [.str "abc"] }] }

/-- A frame with a duplicated code, input of the C3 witness. -/
def C3dupdf : DF :=
  { nrows := 2
    cols := [{ name := "code", dtype := .object, cells := [.str "1", .str "1"] }] }

/-- The dedup output for `C3dupdf`. -/
def C3dedupOut : DF :=
  { nrows := 1
    cols := [{ name := "code", dtype := .object, cells := [.str "1"] }] }

/-- Counterexample table for clean totality: non-empty, no `code` column. -/
def C7df : DF :=
  { nrows := 1, cols := [{ name := "a", dtype := .object, cells := [.str "x"] }] }

/-- A well-behaved one-row table with a `code` column, input of the C7 witness. -/
def C7okdf : DF :=
  { nrows := 1, cols := [{ name := "code", dtype := .object, cells := [.str "1"] }] }

/-- Counterexample table for the cleaning invariant: the `code` column holds
a null and the literal sentinel string; `nutriscore_grade` holds a null and
"a". -/
def C2df : DF :=
  { nrows := 2
    cols := [
      { name := "code", dtype := .object, cells := [.null, .str sentinel] },
      { name := "nutriscore_grade", dtype := .object, cells := [.null, .str "a"] }] }

/-- The cleaned form of `C2df`: the filled code collides with the literal
sentinel (duplicate codes), and the filled nutriscore sentinel fell outside
the categorical domain and became null again. -/
def C2dfCleaned : DF :=
  { nrows := 2
    cols := [
      { name := "code", dtype := .object, cells := [.str sentinel, .str sentinel] },
      { name := "nutriscore_grade", dtype := .categorical, cells := [.null, .str "a"] }] }

/-- A well-behaved table, input of the C2 witness. -/
def C2okdf : DF :=
  { nrows := 1
    cols := [
      { name := "code", dtype := .object, cells := [.str "1"] },
      { name := "labels_tags", dtype := .object, cells := [.null] }] }

/-- The cleaned form of `C2okdf`. -/
def C2okdfCleaned : DF :=
  { nrows := 1
    cols := [
      { name := "code", dtype := .object, cells := [.str "1"] },
      { name := "labels_tags", dtype := .object, cells := [.str sentinel] }] }

/-! ## Theorems -/

/-! ### Character and string lemmas (for the text-normalization rule) -/

theorem pyLowerChar_cases (c : Char) :
    pyLowerChar c = c ∨ pyLowerChar c ∈
      ['a','b','c','d','e','f','g','h','i','j','k','l','m',
       'n','o','p','q','r','s','t','u','v','w','x','y','z'] := by
  unfold pyLowerChar
  split <;> simp

theorem pyLowerChar_idem (c : Char) : pyLowerChar (pyLowerChar c) = pyLowerChar c := by
  have hl : ∀ d ∈ ['a','b','c','d','e','f','g','h','i','j','k','l','m',
      'n','o','p','q','r','s','t','u','v','w','x','y','z'], pyLowerChar d = d := by decide
  rcases pyLowerChar_cases c with h | h
  · rw [h]
    exact h
  · exact hl _ h

theorem pyLowerChar_isWhitespace (c : Char) :
    (pyLowerChar c).isWhitespace = c.isWhitespace := by
  unfold pyLowerChar
  split <;> simp_all

theorem dropWhile_dropWhile {α : Type} (p : α → Bool) (l : List α) :
    (l.dropWhile p).dropWhile p = l.dropWhile p := by
  induction l with
  | nil => rfl
  | cons a l ih =>
    by_cases h : p a
    · simp [List.dropWhile_cons, h, ih]
    · simp [List.dropWhile_cons, h]

theorem dropWhile_eq_self_of_prefix {α : Type} {p : α → Bool} {l₁ l₂ : List α}
    (hpre : l₁ <+: l₂) (h : l₂.dropWhile p = l₂) : l₁.dropWhile p = l₁ := by
  cases l₁ with
  | nil => rfl
  | cons a t =>
    cases l₂ with
    | nil =>
      obtain ⟨r, hr⟩ := hpre
      simp at hr
    | cons b t2 =>
      obtain ⟨r, hr⟩ := hpre
      have hab : a = b := by
        simpa using congrArg (fun l => l.head?) hr
      by_cases hpb : p b
      · rw [List.dropWhile_cons, if_pos hpb] at h
        have hle := ((List.dropWhile_suffix (l := t2) p).sublist).length_le
        rw [h] at hle
        simp at hle
      · rw [List.dropWhile_cons]
        simp [hab, hpb]

theorem stripLeading_idem (l : List Char) : stripLeading (stripLeading l) = stripLeading l :=
  dropWhile_dropWhile _ _

theorem stripTrailing_idem (l : List Char) :
    stripTrailing (stripTrailing l) = stripTrailing l := by
  unfold stripTrailing
  rw [List.reverse_reverse, dropWhile_dropWhile]

theorem stripTrailing_pre (l : List Char) : stripTrailing l <+: l := by
  have := List.reverse_prefix.mpr (List.dropWhile_suffix (l := l.reverse) Char.isWhitespace)
  simpa [stripTrailing] using this

theorem stripLeading_stripTrailing (l : List Char) (h : stripLeading l = l) :
    stripLeading (stripTrailing l) = stripTrailing l :=
  dropWhile_eq_self_of_prefix (stripTrailing_pre l) h

theorem pyStrip_idem (s : String) : pyStrip (pyStrip s) = pyStrip s := by
  apply String.ext
  show stripTrailing (stripLeading (stripTrailing (stripLeading s.data)))
      = stripTrailing (stripLeading s.data)
  rw [stripLeading_stripTrailing _ (stripLeading_idem _), stripTrailing_idem]

theorem stripLeading_map_lower (l : List Char) :
    stripLeading (l.map pyLowerChar) = (stripLeading l).map pyLowerChar := by
  unfold stripLeading
  rw [List.dropWhile_map]
  have hp : (Char.isWhitespace ∘ pyLowerChar) = Char.isWhitespace := by
    funext c
    simp [pyLowerChar_isWhitespace, Function.comp]
  rw [hp]

theorem stripTrailing_map_lower (l : List Char) :
    stripTrailing (l.map pyLowerChar) = (stripTrailing l).map pyLowerChar := by
  unfold stripTrailing
  rw [← List.map_reverse, List.dropWhile_map]
  have hp : (Char.isWhitespace ∘ pyLowerChar) = Char.isWhitespace := by
    funext c
    simp [pyLowerChar_isWhitespace, Function.comp]
  rw [hp, List.map_reverse]

theorem pyLower_pyStrip (s : String) : pyLower (pyStrip s) = pyStrip (pyLower s) := by
  apply String.ext
  show (stripTrailing (stripLeading s.data)).map pyLowerChar
      = stripTrailing (stripLeading (s.data.map pyLowerChar))
  rw [stripLeading_map_lower, stripTrailing_map_lower]

theorem pyLower_idem (s : String) : pyLower (pyLower s) = pyLower s := by
  apply String.ext
  show (s.data.map pyLowerChar).map pyLowerChar = s.data.map pyLowerChar
  rw [List.map_map]
  have hp : (pyLowerChar ∘ pyLowerChar) = pyLowerChar := by
    funext c
    simp [pyLowerChar_idem, Function.comp]
  rw [hp]

theorem normalizeCell_idem (c : Cell) : normalizeCell (normalizeCell c) = normalizeCell c := by
  show Cell.str (pyLower (pyStrip (pyLower (pyStrip (pyStr c))))) = _
  rw [← pyLower_pyStrip, pyStrip_idem, pyLower_idem]
  rfl

/-- Pagination over an all-successful page environment accumulates exactly the
consecutive non-empty prefix of pages: the number of records is the sum of the
page product counts over that prefix, and one request is issued per page of
the prefix plus (when the page budget is not exhausted) one for the empty page
that stops the loop. -/
theorem fetchPages_success_run (ps : Nat → List Record) :
    ∀ (remaining page : Nat),
      (fetchPages (fun i => .success (ps i)) page remaining).records.length
          = prefixSum (fun i => (ps i).length) page
              (nonemptyRun (fun i => (ps i).length) page remaining)
        ∧ (fetchPages (fun i => .success (ps i)) page remaining).requests
          = min remaining (nonemptyRun (fun i => (ps i).length) page remaining + 1) := by
  intro remaining
  induction remaining with
  | zero => intro page; simp [fetchPages, prefixSum, nonemptyRun]
  | succ r ih =>
    intro page
    by_cases h : ps page = []
    · simp [fetchPages, nonemptyRun, prefixSum, h]
    · have hlen : ¬ (ps page).length = 0 := by simpa using h
      refine ⟨?_, ?_⟩
      · simp only [fetchPages, nonemptyRun, prefixSum, h, hlen, if_false,
          List.length_append]
        rw [(ih (page + 1)).1]
      · simp only [fetchPages, nonemptyRun, h, hlen, if_false]
        rw [(ih (page + 1)).2]
        omega

/-- C1 (amended): for an all-successful page environment whose FIRST page is
non-empty, `fetch_all_data` returns the accumulated records; their number is
the sum of the product counts over the run of consecutive non-empty pages
starting at page 1 (capped at `MAX_PAGES`), and one page request is issued per
page of that run plus one for the stopping page when the budget allows; in
particular the scenario `[10, 10, 10, 0]` yields 30 records and 4 requests. -/
theorem fetch_all_success_spec (ps : Nat → List Record) (h1 : ps 1 ≠ []) :
    ((fetch_all_data (fun i => .success (ps i))).1
        = .ok (fetchPages (fun i => .success (ps i)) 1 MAX_PAGES).records)
    ∧ (fetchPages (fun i => .success (ps i)) 1 MAX_PAGES).records.length
        = prefixSum (fun i => (ps i).length) 1
            (nonemptyRun (fun i => (ps i).length) 1 MAX_PAGES)
    ∧ (fetch_all_data (fun i => .success (ps i))).2
        = min MAX_PAGES (nonemptyRun (fun i => (ps i).length) 1 MAX_PAGES + 1)
    ∧ (fetchPages scenarioPages 1 MAX_PAGES).records.length = 30
    ∧ (fetch_all_data scenarioPages).1
        = .ok (fetchPages scenarioPages 1 MAX_PAGES).records
    ∧ (fetch_all_data scenarioPages).2 = 4 := by
  have hrun := fetchPages_success_run ps MAX_PAGES 1
  have hlen : ¬ (ps 1).length = 0 := by simpa using h1
  have hk : nonemptyRun (fun i => (ps i).length) 1 MAX_PAGES
      = nonemptyRun (fun i => (ps i).length) 2 (MAX_PAGES - 1) + 1 := by
    simp [MAX_PAGES, nonemptyRun, hlen]
  have hpos : 0 < (fetchPages (fun i => .success (ps i)) 1 MAX_PAGES).records.length := by
    rw [hrun.1, hk]
    simp only [prefixSum]
    omega
  have hne : (fetchPages (fun i => .success (ps i)) 1 MAX_PAGES).records ≠ [] := by
    intro hc
    rw [hc] at hpos
    simp at hpos
  refine ⟨?_, hrun.1, ?_, by decide, by decide, by decide⟩
  · simp [fetch_all_data, hne]
  · simp [fetch_all_data, hrun.2]

/-- C1 witness: the theorem applied to the constant one-product environment. -/
theorem fetch_all_success_spec_witness :
    (fetch_all_data (fun _ => PageResult.success [[("id", Cell.num 1)]])).1
      = .ok (fetchPages (fun _ => PageResult.success [[("id", Cell.num 1)]])
              1 MAX_PAGES).records :=
  (fetch_all_success_spec (fun _ => [[("id", Cell.num 1)]]) (by decide)).1

/-- C1 counterexample: the environment `C1badPages` has at least one non-empty
page (page 2), yet `fetch_all_data` does not return a RecordSet at all: the
empty page 1 stops pagination immediately and the `ValueError` (`NoDataError`)
is raised. -/
theorem fetch_all_empty_first_page_raises :
    (fetch_all_data C1badPages).1 = .error "Aucune donnée récupérée"
    ∧ C1badPages 2 = .success [[("id", Cell.num 1)]] := by
  constructor <;> decide

/-- C4 (amended): `fetch_page` issues at most 3 attempts; the waits slept
between attempts follow the exponential schedule 2 s then 4 s (so they start
at 2 s and stay within the 10 s cap); a successful first attempt means exactly
one request; a non-httpx exception propagates immediately without retry; but
an `httpx.HTTPStatusError` (4xx/5xx) IS retried — being a subclass of
`httpx.HTTPError` it matches the retry predicate — so three consecutive status
errors mean 3 attempts before the error surfaces, and likewise for
timeout/transport errors. -/
theorem fetch_page_retry_policy (env : Nat → Attempt) :
    (fetch_page env).attempts ≤ 3
    ∧ ((fetch_page env).waits = [] ∨ (fetch_page env).waits = [2]
        ∨ (fetch_page env).waits = [2, 4])
    ∧ (env 1 = .ok →
        (fetch_page env).result = .ok () ∧ (fetch_page env).attempts = 1)
    ∧ (env 1 = .otherErr →
        (fetch_page env).result = .error .otherErr ∧ (fetch_page env).attempts = 1)
    ∧ (∀ c, env 1 = .statusErr c → env 2 = .statusErr c → env 3 = .statusErr c →
        (fetch_page env).result = .error (.statusErr c)
        ∧ (fetch_page env).attempts = 3
        ∧ (fetch_page env).waits = [2, 4]) := by
  cases h1 : env 1 <;> cases h2 : env 2 <;> cases h3 : env 3 <;>
    simp_all [fetch_page, retryLoop, stop_after_attempt, retryableExc, waitExponential]

/-- C4 witness: the theorem applied to the constant 503-status environment. -/
theorem fetch_page_retry_policy_witness :
    (fetch_page (fun _ => Attempt.statusErr 503)).result
        = .error (.statusErr 503)
    ∧ (fetch_page (fun _ => Attempt.statusErr 503)).attempts = 3
    ∧ (fetch_page (fun _ => Attempt.statusErr 503)).waits = [2, 4] :=
  (fetch_page_retry_policy (fun _ => Attempt.statusErr 503)).2.2.2.2 503 rfl rfl rfl

/-- C4 counterexample: with every attempt failing as HTTP 500
(`httpx.HTTPStatusError`), `fetch_page` issues 3 attempts (waiting 2 s and
4 s in between) instead of propagating the status error immediately after a
single attempt, because `HTTPStatusError` is a subclass of `httpx.HTTPError`,
which the tenacity predicate retries. -/
theorem fetch_page_status_error_retried :
    (fetch_page (fun _ => Attempt.statusErr 500)).attempts = 3
    ∧ ¬ (fetch_page (fun _ => Attempt.statusErr 500)).attempts = 1
    ∧ (fetch_page (fun _ => Attempt.statusErr 500)).waits = [2, 4] := by
  refine ⟨by decide, by decide, by decide⟩

/-- C5: `fetch_all_data` raises the `ValueError` (`NoDataError`) exactly when
the pagination loop accumulated zero records; in particular an environment
whose every page is an empty success raises it, and any run that accumulated
at least one record returns those records normally. -/
theorem fetch_all_noDataError_iff (env : Nat → PageResult) :
    ((fetch_all_data env).1 = .error "Aucune donnée récupérée"
      ↔ (fetchPages env 1 MAX_PAGES).records = [])
    ∧ ((fetchPages env 1 MAX_PAGES).records ≠ [] →
        (fetch_all_data env).1 = .ok (fetchPages env 1 MAX_PAGES).records)
    ∧ ((∀ i, env i = .success []) →
        (fetch_all_data env).1 = .error "Aucune donnée récupérée") := by
  refine ⟨?_, ?_, ?_⟩
  · simp only [fetch_all_data]
    split <;> simp_all
  · intro hne
    simp [fetch_all_data, hne]
  · intro hall
    have h1 : fetchPages env 1 MAX_PAGES = { records := [], requests := 1 } := by
      simp [MAX_PAGES, fetchPages, hall 1]
    simp [fetch_all_data, h1]

/-- C5 witness: the theorem applied to the all-empty-pages environment. -/
theorem fetch_all_noDataError_iff_witness :
    (fetch_all_data (fun _ => PageResult.success [])).1
      = .error "Aucune donnée récupérée" :=
  (fetch_all_noDataError_iff (fun _ => PageResult.success [])).2.2 (fun _ => rfl)

/-- C6 (amended): a 404 status error on a page ends pagination immediately
(the loop contributes nothing further and issues no further requests), any
other HTTP status error skips only that page and continues with the next page
number, and the run returns the accumulated records provided at least one
record was accumulated (with zero accumulated records the `NoDataError`
`ValueError` is raised instead — see the counterexample). -/
theorem fetch_all_http_status_handling (env : Nat → PageResult) :
    (∀ page remaining, env page = .httpError 404 →
        fetchPages env page (remaining + 1) = { records := [], requests := 1 })
    ∧ (∀ page remaining status, env page = .httpError status → status ≠ 404 →
        fetchPages env page (remaining + 1)
          = { records := (fetchPages env (page + 1) remaining).records
              requests := (fetchPages env (page + 1) remaining).requests + 1 })
    ∧ ((fetchPages env 1 MAX_PAGES).records ≠ [] →
        (fetch_all_data env).1 = .ok (fetchPages env 1 MAX_PAGES).records) := by
  refine ⟨?_, ?_, ?_⟩
  · intro page remaining h
    simp [fetchPages, h]
  · intro page remaining status h hne
    simp [fetchPages, h, hne]
  · intro hne
    simp [fetch_all_data, hne]

/-- C6 witness: the theorem applied to an environment whose page 2 is a 500
status error sandwiched between successful pages. -/
theorem fetch_all_http_status_handling_witness :
    fetchPages (fun p => if p = 2 then .httpError 500 else .success [[("id", Cell.num 1)]])
        2 8
      = { records := (fetchPages
            (fun p => if p = 2 then .httpError 500 else .success [[("id", Cell.num 1)]]) 3 7).records
          requests := (fetchPages
            (fun p => if p = 2 then .httpError 500 else .success [[("id", Cell.num 1)]]) 3 7).requests + 1 } :=
  (fetch_all_http_status_handling
      (fun p => if p = 2 then .httpError 500 else .success [[("id", Cell.num 1)]])).2.1
    2 7 500 rfl (by decide)

/-- C6 counterexample: a 404 on page 1 does not "end pagination gracefully
with the records accumulated so far": zero records were accumulated, so
`fetch_all_data` raises the `ValueError` (`NoDataError`) — the run fails
rather than returning the (empty) accumulated RecordSet. -/
theorem fetch_all_404_without_records_raises :
    (fetch_all_data (fun _ => PageResult.httpError 404)).1
      = .error "Aucune donnée récupérée" := by
  decide


/-! ### Dedup mask lemmas -/

theorem applyMask_cons_true (ms : List Bool) (c : Cell) (cs : List Cell) :
    applyMask (true :: ms) (c :: cs) = c :: applyMask ms cs := rfl

theorem applyMask_cons_false (ms : List Bool) (c : Cell) (cs : List Cell) :
    applyMask (false :: ms) (c :: cs) = applyMask ms cs := rfl

theorem keepFirstMask_length (cells : List Cell) :
    ∀ seen, (keepFirstMask seen cells).length = cells.length := by
  induction cells with
  | nil => intro seen; rfl
  | cons c rest ih => intro seen; simp [keepFirstMask, ih]

theorem applyMask_subset (mask : List Bool) :
    ∀ cells : List Cell, ∀ x ∈ applyMask mask cells, x ∈ cells := by
  induction mask with
  | nil => intro cells x hx; simp [applyMask] at hx
  | cons b ms ih =>
    intro cells x hx
    cases cells with
    | nil => simp [applyMask] at hx
    | cons c cs =>
      cases b with
      | false =>
        rw [applyMask_cons_false] at hx
        exact List.mem_cons_of_mem _ (ih cs x hx)
      | true =>
        rw [applyMask_cons_true] at hx
        rcases List.mem_cons.mp hx with hx | hx
        · simp [hx]
        · exact List.mem_cons_of_mem _ (ih cs x hx)

theorem applyMask_length (mask : List Bool) :
    ∀ cells : List Cell, mask.length = cells.length →
      (applyMask mask cells).length = mask.count true := by
  induction mask with
  | nil => intro cells h; simp [applyMask]
  | cons b ms ih =>
    intro cells h
    cases cells with
    | nil => simp at h
    | cons c cs =>
      simp only [List.length_cons, Nat.add_right_cancel_iff] at h
      cases b with
      | false => simp [applyMask_cons_false, ih cs h, List.count_cons]
      | true => simp [applyMask_cons_true, ih cs h, List.count_cons]

theorem applyMask_keepFirst (cells : List Cell) :
    ∀ seen : List Cell,
      (applyMask (keepFirstMask seen cells) cells).Nodup
      ∧ ∀ x ∈ applyMask (keepFirstMask seen cells) cells, x ∉ seen := by
  induction cells with
  | nil => intro seen; simp [keepFirstMask, applyMask]
  | cons c rest ih =>
    intro seen
    by_cases h : c ∈ seen
    · have hm : keepFirstMask seen (c :: rest) = false :: keepFirstMask (c :: seen) rest := by
        simp [keepFirstMask, h]
      rw [hm, applyMask_cons_false]
      refine ⟨(ih (c :: seen)).1, ?_⟩
      intro x hx hmem
      exact (ih (c :: seen)).2 x hx (List.mem_cons_of_mem _ hmem)
    · have hm : keepFirstMask seen (c :: rest) = true :: keepFirstMask (c :: seen) rest := by
        simp [keepFirstMask, h]
      rw [hm, applyMask_cons_true]
      constructor
      · rw [List.nodup_cons]
        refine ⟨?_, (ih (c :: seen)).1⟩
        intro hc
        exact (ih (c :: seen)).2 c hc (List.mem_cons_self _ _)
      · intro x hx
        rcases List.mem_cons.mp hx with hx | hx
        · simpa [hx] using h
        · intro hmem
          exact (ih (c :: seen)).2 x hx (List.mem_cons_of_mem _ hmem)

theorem keepFirstMask_of_nodup (cells : List Cell) :
    ∀ seen, cells.Nodup → (∀ x ∈ cells, x ∉ seen) →
      keepFirstMask seen cells = List.replicate cells.length true := by
  induction cells with
  | nil => intro seen _ _; rfl
  | cons c rest ih =>
    intro seen hn hs
    rw [List.nodup_cons] at hn
    have hc : c ∉ seen := hs c (List.mem_cons_self _ _)
    simp only [keepFirstMask, hc, decide_False, Bool.not_false, List.length_cons,
      List.replicate_succ, List.cons.injEq, true_and]
    apply ih (c :: seen) hn.2
    intro x hx hmem
    rcases List.mem_cons.mp hmem with h1 | h1
    · exact hn.1 (h1 ▸ hx)
    · exact hs x (List.mem_cons_of_mem _ hx) h1

theorem applyMask_replicate_true (cells : List Cell) :
    ∀ n, cells.length = n → applyMask (List.replicate n true) cells = cells := by
  induction cells with
  | nil => intro n h; cases n <;> rfl
  | cons c cs ih =>
    intro n h
    cases n with
    | zero => simp at h
    | succ m =>
      simp only [List.length_cons, Nat.succ.injEq] at h
      rw [List.replicate_succ, applyMask_cons_true, ih m h]

/-! ### Columnwise stage lemmas and pipeline inversion -/

theorem fillTextCol_name (c : Col) : (fillTextCol c).name = c.name := by
  unfold fillTextCol; split <;> rfl

theorem fillNumCol_name (c : Col) : (fillNumCol c).name = c.name := by
  unfold fillNumCol; split <;> rfl

theorem normalizeTextCol_name (c : Col) : (normalizeTextCol c).name = c.name := by
  unfold normalizeTextCol; split <;> rfl

theorem codeToStrCol_name (c : Col) : (codeToStrCol c).name = c.name := by
  unfold codeToStrCol; split <;> rfl

theorem nutriscoreCol_name (c : Col) : (nutriscoreCol c).name = c.name := by
  unfold nutriscoreCol; split <;> rfl

theorem cleanNumericCol_name (sigma : ℚ → ℚ) (c : Col) :
    (cleanNumericCol sigma c).name = c.name := by
  unfold cleanNumericCol; split <;> rfl

theorem flattenListCol_name (c : Col) : (flattenListCol c).name = c.name := by
  unfold flattenListCol; split <;> rfl

theorem cleanColSteps_name (sigma : ℚ → ℚ) (c : Col) :
    (cleanColSteps sigma c).name = c.name := by
  unfold cleanColSteps
  rw [flattenListCol_name, cleanNumericCol_name, nutriscoreCol_name, codeToStrCol_name,
    normalizeTextCol_name, fillNumCol_name, fillTextCol_name]

theorem fillTextCol_dtype (c : Col) : (fillTextCol c).dtype = c.dtype := by
  unfold fillTextCol; split <;> rfl

theorem fillNumCol_dtype (c : Col) : (fillNumCol c).dtype = c.dtype := by
  unfold fillNumCol; split <;> rfl

theorem fillTextCol_skip {c : Col} (h : ¬ c.dtype = .object) : fillTextCol c = c := by
  unfold fillTextCol; rw [if_neg h]

theorem fillNumCol_skip {c : Col} (h : ¬ c.dtype = .numeric) : fillNumCol c = c := by
  unfold fillNumCol; rw [if_neg h]

theorem normalizeTextCol_skip {c : Col} (h : c.name ∉ text_cols_to_normalize) :
    normalizeTextCol c = c := by
  unfold normalizeTextCol; rw [if_neg h]

theorem codeToStrCol_skip {c : Col} (h : ¬ c.name = "code") : codeToStrCol c = c := by
  unfold codeToStrCol; rw [if_neg h]

theorem nutriscoreCol_skip {c : Col} (h : ¬ c.name = "nutriscore_grade") :
    nutriscoreCol c = c := by
  unfold nutriscoreCol; rw [if_neg h]

theorem cleanNumericCol_skip {sigma : ℚ → ℚ} {c : Col}
    (h : c.name ∉ numeric_cols_to_clean) : cleanNumericCol sigma c = c := by
  unfold cleanNumericCol; rw [if_neg h]

theorem flattenListCol_skip {c : Col} (h : c.name ∉ list_cols) : flattenListCol c = c := by
  unfold flattenListCol; rw [if_neg h]

theorem dropDuplicates_ok {df df1 : DF} (h : dropDuplicatesByCode df = .ok df1) :
    ∃ codeCol, df.cols.find? (fun c => c.name = "code") = some codeCol
      ∧ codeCol.cells.any Cell.isList = false
      ∧ df1 = { nrows := (keepFirstMask [] codeCol.cells).count true
                cols := df.cols.map (maskCol (keepFirstMask [] codeCol.cells)) } := by
  unfold dropDuplicatesByCode at h
  split at h
  · cases h
  next codeCol hf =>
    split at h
    · cases h
    next hl =>
      injection h with h2
      exact ⟨codeCol, hf, by simpa using hl, h2.symm⟩

theorem nutriscore_ok {df df4 : DF} (h : nutriscoreToCategorical df = .ok df4) :
    df.cols.any (fun c => c.name = "nutriscore_grade" && c.cells.any Cell.isList) = false
    ∧ df4 = { df with cols := df.cols.map nutriscoreCol } := by
  unfold nutriscoreToCategorical at h
  split at h
  · cases h
  next hg =>
    injection h with h2
    exact ⟨by simpa using hg, h2.symm⟩

theorem cleanNumeric_ok {sigma : ℚ → ℚ} {df df5 : DF}
    (h : cleanNumericCols sigma df = .ok df5) :
    df.cols.any (fun c => decide (c.name ∈ numeric_cols_to_clean) && c.cells.any Cell.isList)
        = false
    ∧ df5 = { df with cols := df.cols.map (cleanNumericCol sigma) } := by
  unfold cleanNumericCols at h
  split at h
  · cases h
  next hg =>
    injection h with h2
    exact ⟨by simpa using hg, h2.symm⟩

theorem clean_eq_of_stages (sigma : ℚ → ℚ) (df df1 df4 df5 : DF)
    (hne : df.empty = false)
    (h1 : dropDuplicatesByCode df = .ok df1)
    (h4 : nutriscoreToCategorical (codeToStr (normalizeTextCols (fillNumCols
            (fillTextCols df1)))) = .ok df4)
    (h5 : cleanNumericCols sigma df4 = .ok df5) :
    clean_dataframe sigma df = .ok (flattenListCols df5) := by
  unfold clean_dataframe
  rw [hne]
  simp only [Bool.false_eq_true, if_false, bind, Except.bind, h1, h4, h5]
  rfl

theorem clean_ok_stages {sigma : ℚ → ℚ} {df out : DF}
    (hne : df.empty = false) (h : clean_dataframe sigma df = .ok out) :
    ∃ df1 df4 df5,
      dropDuplicatesByCode df = .ok df1
      ∧ nutriscoreToCategorical (codeToStr (normalizeTextCols (fillNumCols
          (fillTextCols df1)))) = .ok df4
      ∧ cleanNumericCols sigma df4 = .ok df5
      ∧ out = flattenListCols df5 := by
  unfold clean_dataframe at h
  rw [hne] at h
  simp only [Bool.false_eq_true, if_false, bind, Except.bind] at h
  split at h
  · cases h
  next df1 h1 =>
    split at h
    · cases h
    next df4 h4 =>
      split at h
      · cases h
      next df5 h5 =>
        injection h with h2
        exact ⟨df1, df4, df5, h1, h4, h5, h2.symm⟩

set_option maxHeartbeats 1000000 in

theorem fillTextCols_cols (df : DF) : (fillTextCols df).cols = df.cols.map fillTextCol := rfl

theorem fillNumCols_cols (df : DF) : (fillNumCols df).cols = df.cols.map fillNumCol := rfl

theorem normalizeTextCols_cols (df : DF) :
    (normalizeTextCols df).cols = df.cols.map normalizeTextCol := rfl

theorem codeToStr_cols (df : DF) : (codeToStr df).cols = df.cols.map codeToStrCol := rfl

theorem flattenListCols_cols (df : DF) :
    (flattenListCols df).cols = df.cols.map flattenListCol := rfl

theorem fillTextCols_nrows (df : DF) : (fillTextCols df).nrows = df.nrows := rfl

theorem fillNumCols_nrows (df : DF) : (fillNumCols df).nrows = df.nrows := rfl

theorem normalizeTextCols_nrows (df : DF) : (normalizeTextCols df).nrows = df.nrows := rfl

theorem codeToStr_nrows (df : DF) : (codeToStr df).nrows = df.nrows := rfl

theorem flattenListCols_nrows (df : DF) : (flattenListCols df).nrows = df.nrows := rfl

theorem cleanColSteps_eq_comp (sigma : ℚ → ℚ) (m : List Bool) :
    (fun c => cleanColSteps sigma (maskCol m c))
      = (flattenListCol ∘ (cleanNumericCol sigma ∘ (nutriscoreCol ∘ (codeToStrCol ∘
          (normalizeTextCol ∘ (fillNumCol ∘ (fillTextCol ∘ maskCol m))))))) := by
  funext c
  simp only [cleanColSteps, Function.comp]

theorem clean_ok_inversion {sigma : ℚ → ℚ} {df out : DF}
    (hne : df.empty = false) (h : clean_dataframe sigma df = .ok out) :
    ∃ codeCol, df.cols.find? (fun c => c.name = "code") = some codeCol
      ∧ codeCol.cells.any Cell.isList = false
      ∧ out.cols = df.cols.map
          (fun c => cleanColSteps sigma (maskCol (keepFirstMask [] codeCol.cells) c))
      ∧ out.nrows = (keepFirstMask [] codeCol.cells).count true := by
  obtain ⟨df1, df4, df5, h1, h4, h5, hout⟩ := clean_ok_stages hne h
  obtain ⟨codeCol, hf, hl, hdf1⟩ := dropDuplicates_ok h1
  obtain ⟨hg4, hdf4⟩ := nutriscore_ok h4
  obtain ⟨hg5, hdf5⟩ := cleanNumeric_ok h5
  refine ⟨codeCol, hf, hl, ?_, ?_⟩
  · rw [cleanColSteps_eq_comp]
    simp only [hout, hdf5, hdf4, hdf1, flattenListCols_cols, codeToStr_cols,
      normalizeTextCols_cols, fillNumCols_cols, fillTextCols_cols, List.map_map]
  · simp only [hout, hdf5, hdf4, hdf1, flattenListCols_nrows, codeToStr_nrows,
      normalizeTextCols_nrows, fillNumCols_nrows, fillTextCols_nrows]

/-! ### No-list preservation and totality of clean (claim C7) -/

theorem fillTextCell_not_list (x : Cell) (h : x.isList = false) :
    (fillTextCell x).isList = false := by
  unfold fillTextCell
  split
  · rfl
  · exact h

theorem fillTextCol_no_list {c : Col} (h : ∀ x ∈ c.cells, x.isList = false) :
    ∀ x ∈ (fillTextCol c).cells, x.isList = false := by
  unfold fillTextCol
  split
  · intro x hx
    obtain ⟨y, hy, hxy⟩ := List.mem_map.mp hx
    rw [← hxy]
    exact fillTextCell_not_list y (h y hy)
  · exact h

theorem fillNumCol_no_list {c : Col} (h : ∀ x ∈ c.cells, x.isList = false) :
    ∀ x ∈ (fillNumCol c).cells, x.isList = false := by
  unfold fillNumCol
  split
  · intro x hx
    obtain ⟨y, hy, hxy⟩ := List.mem_map.mp hx
    rw [← hxy]
    split
    · rfl
    · exact h y hy
  · exact h

theorem maskCol_no_list {m : List Bool} {c : Col} (h : ∀ x ∈ c.cells, x.isList = false) :
    ∀ x ∈ (maskCol m c).cells, x.isList = false := by
  intro x hx
  exact h x (applyMask_subset m c.cells x hx)

theorem steps_to4_no_list {c : Col}
    (hnorm : c.name ∉ text_cols_to_normalize) (hcode : ¬ c.name = "code")
    (h : ∀ x ∈ c.cells, x.isList = false) :
    ∀ x ∈ (codeToStrCol (normalizeTextCol (fillNumCol (fillTextCol c)))).cells,
      x.isList = false := by
  have hn2 : (fillNumCol (fillTextCol c)).name = c.name := by
    rw [fillNumCol_name, fillTextCol_name]
  rw [normalizeTextCol_skip (by rw [hn2]; exact hnorm)]
  rw [codeToStrCol_skip (by rw [hn2]; exact hcode)]
  exact fillNumCol_no_list (fillTextCol_no_list h)

theorem dropDuplicates_ok_of {df : DF} {codeCol : Col}
    (hf : df.cols.find? (fun c => c.name = "code") = some codeCol)
    (hl : codeCol.cells.any Cell.isList = false) :
    dropDuplicatesByCode df = .ok
      { nrows := (keepFirstMask [] codeCol.cells).count true
        cols := df.cols.map (maskCol (keepFirstMask [] codeCol.cells)) } := by
  unfold dropDuplicatesByCode
  split
  next hnone => rw [hnone] at hf; cases hf
  next c2 hsome =>
    rw [hf] at hsome
    injection hsome with h2
    subst h2
    rw [if_neg (by simp [hl])]

/-- C7 (amended): `clean_dataframe` returns an empty input unchanged, and it
succeeds on every table that has a `code` column and no list-valued entries in
the `code`, `nutriscore_grade`, or nutritional columns.  (It is not total in
general: a non-empty table without a `code` column raises `KeyError`.) -/
theorem clean_total_spec (sigma : ℚ → ℚ) (df : DF)
    (hcode : ∃ c ∈ df.cols, c.name = "code")
    (hnl : ∀ c ∈ df.cols,
      (c.name = "code" ∨ c.name = "nutriscore_grade" ∨ c.name ∈ numeric_cols_to_clean) →
      ∀ x ∈ c.cells, x.isList = false) :
    (∃ out, clean_dataframe sigma df = .ok out)
    ∧ (df.empty = true → clean_dataframe sigma df = .ok df) := by
  have hempty : df.empty = true → clean_dataframe sigma df = .ok df := by
    intro he
    unfold clean_dataframe
    rw [he]
    rfl
  refine ⟨?_, hempty⟩
  by_cases he : df.empty
  · exact ⟨df, hempty he⟩
  · have hne : df.empty = false := by simpa using he
    obtain ⟨c0, hc0, hc0n⟩ := hcode
    have hfs : (df.cols.find? (fun c => c.name = "code")).isSome := by
      rw [List.find?_isSome]
      exact ⟨c0, hc0, by simp [hc0n]⟩
    obtain ⟨codeCol, hf⟩ := Option.isSome_iff_exists.mp hfs
    have hcodeMem : codeCol ∈ df.cols := List.mem_of_find?_eq_some hf
    have hcodeName : codeCol.name = "code" := by simpa using List.find?_some hf
    have hlcode : codeCol.cells.any Cell.isList = false := by
      rw [List.any_eq_false]
      intro x hx
      simp [hnl codeCol hcodeMem (Or.inl hcodeName) x hx]
    have h1 := dropDuplicates_ok_of hf hlcode
    set mask := keepFirstMask [] codeCol.cells with hmask
    set df1 : DF := { nrows := mask.count true, cols := df.cols.map (maskCol mask) }
      with hdf1
    set df3 : DF := codeToStr (normalizeTextCols (fillNumCols (fillTextCols df1)))
      with hdf3
    have hd3 : df3.cols = df.cols.map (fun c =>
        codeToStrCol (normalizeTextCol (fillNumCol (fillTextCol (maskCol mask c))))) := by
      rw [hdf3, codeToStr_cols, normalizeTextCols_cols, fillNumCols_cols, fillTextCols_cols,
        hdf1]
      simp only [List.map_map]
      rfl
    have hname3 : ∀ c : Col,
        (codeToStrCol (normalizeTextCol (fillNumCol (fillTextCol (maskCol mask c))))).name
          = c.name := by
      intro c
      rw [codeToStrCol_name, normalizeTextCol_name, fillNumCol_name, fillTextCol_name]
      rfl
    have hnolist3 : ∀ c ∈ df.cols, c.name ∉ text_cols_to_normalize → ¬ c.name = "code" →
        (∀ x ∈ c.cells, x.isList = false) →
        ∀ x ∈ (codeToStrCol (normalizeTextCol (fillNumCol (fillTextCol
            (maskCol mask c))))).cells, x.isList = false := by
      intro c _ hnorm hcn hcl
      apply steps_to4_no_list
      · show (maskCol mask c).name ∉ text_cols_to_normalize
        exact hnorm
      · show ¬ (maskCol mask c).name = "code"
        exact hcn
      · exact maskCol_no_list hcl
    have hg4 : df3.cols.any
        (fun c => c.name = "nutriscore_grade" && c.cells.any Cell.isList) = false := by
      rw [List.any_eq_false]
      intro c3 hc3
      rw [hd3] at hc3
      obtain ⟨c, hc, hc3eq⟩ := List.mem_map.mp hc3
      rw [← hc3eq]
      by_cases hn : c.name = "nutriscore_grade"
      · have h2 : (codeToStrCol (normalizeTextCol (fillNumCol (fillTextCol
            (maskCol mask c))))).cells.any Cell.isList = false := by
          rw [List.any_eq_false]
          intro x hx
          have := hnolist3 c hc (by rw [hn]; decide) (by rw [hn]; decide)
            (hnl c hc (Or.inr (Or.inl hn))) x hx
          simp [this]
        simp [h2]
      · simp [hname3 c, hn]
    have h4 : nutriscoreToCategorical df3 = .ok { df3 with cols := df3.cols.map nutriscoreCol } := by
      unfold nutriscoreToCategorical
      rw [if_neg (by simp [hg4])]
    set df4 : DF := { df3 with cols := df3.cols.map nutriscoreCol } with hdf4
    have hg5 : df4.cols.any
        (fun c => decide (c.name ∈ numeric_cols_to_clean) && c.cells.any Cell.isList)
          = false := by
      rw [List.any_eq_false]
      intro c4 hc4
      rw [hdf4] at hc4
      obtain ⟨c3, hc3, hc4eq⟩ := List.mem_map.mp hc4
      rw [hd3] at hc3
      obtain ⟨c, hc, hc3eq⟩ := List.mem_map.mp hc3
      rw [← hc4eq, ← hc3eq]
      by_cases hn : c.name ∈ numeric_cols_to_clean
      · have hfacts : ∀ n ∈ numeric_cols_to_clean,
            ¬ n = "nutriscore_grade" ∧ n ∉ text_cols_to_normalize ∧ ¬ n = "code" := by
          decide
        obtain ⟨hf1, hf2, hf3⟩ := hfacts c.name hn
        have hskip : nutriscoreCol (codeToStrCol (normalizeTextCol (fillNumCol (fillTextCol
            (maskCol mask c))))) = codeToStrCol (normalizeTextCol (fillNumCol (fillTextCol
            (maskCol mask c)))) := by
          apply nutriscoreCol_skip
          rw [hname3 c]
          exact hf1
        rw [hskip]
        have h2 : (codeToStrCol (normalizeTextCol (fillNumCol (fillTextCol
            (maskCol mask c))))).cells.any Cell.isList = false := by
          rw [List.any_eq_false]
          intro x hx
          have := hnolist3 c hc hf2 hf3 (hnl c hc (Or.inr (Or.inr hn))) x hx
          simp [this]
        simp [h2]
      · have : (nutriscoreCol (codeToStrCol (normalizeTextCol (fillNumCol (fillTextCol
            (maskCol mask c)))))).name = c.name := by
          rw [nutriscoreCol_name, hname3 c]
        simp [this, hn]
    have h5 : cleanNumericCols sigma df4 = .ok
        { df4 with cols := df4.cols.map (cleanNumericCol sigma) } := by
      unfold cleanNumericCols
      rw [if_neg (by simp [hg5])]
    exact ⟨_, clean_eq_of_stages sigma df df1 df4
      { df4 with cols := df4.cols.map (cleanNumericCol sigma) } hne h1 h4 h5⟩

/-! ### Table construction and text fill (claims C10 and C8) -/

/-- C10: `raw_to_dataframe` raises `ValueError` ("Aucune donnée à convertir")
on an empty record list instead of returning an empty table, and on any
non-empty list returns a DataFrame with one row per record (every column
holding one cell per record). -/
theorem raw_to_dataframe_spec (raw : List Record) :
    (raw = [] → raw_to_dataframe raw = .error "Aucune donnée à convertir")
    ∧ (raw ≠ [] → ∃ df, raw_to_dataframe raw = .ok df ∧ df.nrows = raw.length
        ∧ ∀ c ∈ df.cols, c.cells.length = raw.length) := by
  constructor
  · intro h
    simp [raw_to_dataframe, h]
  · intro h
    rw [raw_to_dataframe, if_neg h]
    refine ⟨_, rfl, rfl, ?_⟩
    intro c hc
    simp only [List.mem_map] at hc
    obtain ⟨k, hk, rfl⟩ := hc
    simp

/-- C10 witness: the theorem applied to a concrete one-record list. -/
theorem raw_to_dataframe_spec_witness :
    ∃ df, raw_to_dataframe [[("code", Cell.str "1")]] = .ok df
      ∧ df.nrows = [[("code", Cell.str "1")]].length
      ∧ ∀ c ∈ df.cols, c.cells.length = [[("code", Cell.str "1")]].length :=
  (raw_to_dataframe_spec [[("code", Cell.str "1")]]).2 (by decide)

/-- C8: the text fill rule of `clean_dataframe` replaces, in every
object/string-typed (text) column, each null entry by the fixed sentinel
string "Non renseigné" (rendered "not provided" by the spec) and leaves every
non-null entry of that column unchanged; and in the two-row scenario the
cleaned table has the null replaced by the sentinel and the other value
untouched (no trim/lowercase rule applies to this column). -/
theorem clean_text_fill_spec (sigma : ℚ → ℚ) (df : DF) (i : Nat) (c : Col)
    (hi : df.cols[i]? = some c) (hd : c.dtype = .object) :
    (∃ c2, (fillTextCols df).cols[i]? = some c2 ∧ c2.name = c.name
      ∧ c2.dtype = c.dtype
      ∧ c2.cells.length = c.cells.length
      ∧ (∀ (j : Nat) (x : Cell), c.cells[j]? = some x → x ≠ .null → c2.cells[j]? = some x)
      ∧ (∀ (j : Nat), c.cells[j]? = some .null → c2.cells[j]? = some (.str sentinel)))
    ∧ clean_dataframe sigma C8df = .ok C8dfCleaned := by
  constructor
  · refine ⟨{ c with cells := c.cells.map fillTextCell }, ?_, rfl, ?_, by simp, ?_, ?_⟩
    · simp [fillTextCols, fillTextCol, List.getElem?_map, hi, hd]
    · simp [hd]
    · intro j x hj hx
      simp [List.getElem?_map, hj, fillTextCell, hx]
    · intro j hj
      simp [List.getElem?_map, hj, fillTextCell]
  · rfl

/-- C8 witness: the theorem applied to the scenario table's text column. -/
theorem clean_text_fill_spec_witness :
    ∃ c2, (fillTextCols C8df).cols[1]? = some c2
      ∧ c2.name = C8textCol.name
      ∧ c2.dtype = C8textCol.dtype
      ∧ c2.cells.length = C8textCol.cells.length
      ∧ (∀ (j : Nat) (x : Cell), C8textCol.cells[j]? = some x → x ≠ .null →
            c2.cells[j]? = some x)
      ∧ (∀ (j : Nat), C8textCol.cells[j]? = some .null →
            c2.cells[j]? = some (.str sentinel)) :=
  (clean_text_fill_spec (fun _ => 0) C8df 1 C8textCol rfl rfl).1

/-! ### Idempotence of the cleaning rules (claim C3) -/

theorem maskCol_name (m : List Bool) (c : Col) : (maskCol m c).name = c.name := rfl

theorem dedup_idem {df df1 : DF} (hwf : ∀ c ∈ df.cols, c.cells.length = df.nrows)
    (h : dropDuplicatesByCode df = .ok df1) : dropDuplicatesByCode df1 = .ok df1 := by
  obtain ⟨codeCol, hf, hl, hdf1⟩ := dropDuplicates_ok h
  have hcodeMem := List.mem_of_find?_eq_some hf
  have hlen : codeCol.cells.length = df.nrows := hwf codeCol hcodeMem
  set mask := keepFirstMask [] codeCol.cells with hmask
  have hmlen : mask.length = df.nrows := by
    rw [hmask, keepFirstMask_length, hlen]
  have hf1 : df1.cols.find? (fun c => c.name = "code") = some (maskCol mask codeCol) := by
    rw [hdf1]
    show (df.cols.map (maskCol mask)).find? (fun c => decide (c.name = "code")) = _
    rw [List.find?_map]
    have hp : ((fun c => decide (c.name = "code")) ∘ maskCol mask)
        = fun c : Col => decide (c.name = "code") := rfl
    rw [hp, hf]
    rfl
  have hnodup : (applyMask mask codeCol.cells).Nodup :=
    (applyMask_keepFirst codeCol.cells []).1
  have hlen1 : (applyMask mask codeCol.cells).length = mask.count true :=
    applyMask_length mask codeCol.cells (by rw [hmlen, hlen])
  have hl1 : (maskCol mask codeCol).cells.any Cell.isList = false := by
    rw [List.any_eq_false]
    intro x hx
    have hmem := applyMask_subset mask codeCol.cells x hx
    have := List.any_eq_false.mp hl x hmem
    simpa using this
  have h2 := dropDuplicates_ok_of hf1 hl1
  rw [h2]
  have hm2 : keepFirstMask [] (maskCol mask codeCol).cells
      = List.replicate (applyMask mask codeCol.cells).length true :=
    keepFirstMask_of_nodup _ [] hnodup (by simp)
  have hcount2 : (keepFirstMask [] (maskCol mask codeCol).cells).count true
      = mask.count true := by
    rw [hm2, List.count_replicate, hlen1]
    simp
  congr 1
  rw [hdf1]
  have hcols : (df.cols.map (maskCol mask)).map
      (maskCol (keepFirstMask [] (maskCol mask codeCol).cells))
        = df.cols.map (maskCol mask) := by
    rw [List.map_map]
    apply List.map_congr_left
    intro c hc
    show maskCol (keepFirstMask [] (maskCol mask codeCol).cells) (maskCol mask c)
        = maskCol mask c
    have hclen : (applyMask mask c.cells).length = mask.count true :=
      applyMask_length mask c.cells (by rw [hmlen, hwf c hc])
    show Col.mk (maskCol mask c).name (maskCol mask c).dtype
        (applyMask (keepFirstMask [] (maskCol mask codeCol).cells)
          (applyMask mask c.cells)) = maskCol mask c
    rw [hm2, applyMask_replicate_true _ _ (by rw [hclen, hlen1])]
    rfl
  show DF.mk ((keepFirstMask [] (maskCol mask codeCol).cells).count true)
      ((df.cols.map (maskCol mask)).map
        (maskCol (keepFirstMask [] (maskCol mask codeCol).cells)))
    = DF.mk (mask.count true) (df.cols.map (maskCol mask))
  rw [hcount2, hcols]



theorem fillTextCell_idem (x : Cell) : fillTextCell (fillTextCell x) = fillTextCell x := by
  by_cases hx : x = .null <;> simp [fillTextCell, hx]

theorem fillTextCol_idem (c : Col) : fillTextCol (fillTextCol c) = fillTextCol c := by
  by_cases hd : c.dtype = .object
  · have h1 : fillTextCol c = { c with cells := c.cells.map fillTextCell } := by
      unfold fillTextCol
      rw [if_pos hd]
    rw [h1]
    unfold fillTextCol
    rw [if_pos hd]
    show ({ c with cells := (c.cells.map fillTextCell).map fillTextCell } : Col) = _
    rw [List.map_map]
    have : (fillTextCell ∘ fillTextCell) = fillTextCell := by
      funext x
      exact fillTextCell_idem x
    rw [this]
  · rw [fillTextCol_skip hd, fillTextCol_skip hd]

theorem fillNumCells_no_null (cells : List Cell) :
    ∀ x ∈ fillNumCells cells, ¬ x = .null := by
  unfold fillNumCells
  intro x hx
  obtain ⟨y, hy, hxy⟩ := List.mem_map.mp hx
  rw [← hxy]
  split
  · simp
  next hyn => exact hyn

theorem fillNumCells_idem (cells : List Cell) :
    fillNumCells (fillNumCells cells) = fillNumCells cells := by
  conv_lhs => rw [fillNumCells]
  have : (fillNumCells cells).map
      (fun c => if c = .null then .num ((median (fillNumCells cells)).getD 0) else c)
      = (fillNumCells cells).map id := by
    apply List.map_congr_left
    intro x hx
    rw [if_neg (fillNumCells_no_null cells x hx)]
    rfl
  rw [this, List.map_id]

theorem fillNumCol_idem (c : Col) : fillNumCol (fillNumCol c) = fillNumCol c := by
  by_cases hd : c.dtype = .numeric
  · have h1 : fillNumCol c = { c with cells := fillNumCells c.cells } := by
      unfold fillNumCol
      rw [if_pos hd]
    rw [h1]
    unfold fillNumCol
    rw [if_pos hd]
    show ({ c with cells := fillNumCells (fillNumCells c.cells) } : Col) = _
    rw [fillNumCells_idem]
  · rw [fillNumCol_skip hd, fillNumCol_skip hd]

theorem normalizeTextCol_idem (c : Col) :
    normalizeTextCol (normalizeTextCol c) = normalizeTextCol c := by
  by_cases hn : c.name ∈ text_cols_to_normalize
  · have h1 : normalizeTextCol c
        = { c with dtype := .object, cells := c.cells.map normalizeCell } := by
      unfold normalizeTextCol
      rw [if_pos hn]
    rw [h1]
    unfold normalizeTextCol
    rw [if_pos hn]
    show ({ c with dtype := .object, cells := (c.cells.map normalizeCell).map normalizeCell } : Col) = _
    rw [List.map_map]
    have : (normalizeCell ∘ normalizeCell) = normalizeCell := by
      funext x
      exact normalizeCell_idem x
    rw [this]
  · rw [normalizeTextCol_skip hn, normalizeTextCol_skip hn]

theorem codeToStrCol_idem (c : Col) : codeToStrCol (codeToStrCol c) = codeToStrCol c := by
  by_cases hn : c.name = "code"
  · have h1 : codeToStrCol c = { c with dtype := .object, cells := c.cells.map fun x => .str (pyStr x) } := by
      unfold codeToStrCol
      rw [if_pos hn]
    rw [h1]
    unfold codeToStrCol
    rw [if_pos hn]
    show ({ c with dtype := .object, cells := (c.cells.map fun x => .str (pyStr x)).map fun x => .str (pyStr x) } : Col) = _
    rw [List.map_map]
    have : ((fun x => Cell.str (pyStr x)) ∘ (fun x => Cell.str (pyStr x)))
        = fun x => Cell.str (pyStr x) := by
      funext x
      rfl
    rw [this]
  · rw [codeToStrCol_skip hn, codeToStrCol_skip hn]

theorem toCategoricalCell_idem (x : Cell) :
    toCategoricalCell (toCategoricalCell x) = toCategoricalCell x := by
  cases x with
  | str s =>
    by_cases hs : s ∈ nutriscoreDomain <;> simp [toCategoricalCell, hs]
  | null => rfl
  | num q => rfl
  | list l => rfl

theorem nutriscoreCol_idem (c : Col) : nutriscoreCol (nutriscoreCol c) = nutriscoreCol c := by
  by_cases hn : c.name = "nutriscore_grade"
  · have h1 : nutriscoreCol c = { c with dtype := .categorical, cells := c.cells.map toCategoricalCell } := by
      unfold nutriscoreCol
      rw [if_pos hn]
    rw [h1]
    unfold nutriscoreCol
    rw [if_pos hn]
    show ({ c with dtype := .categorical, cells := (c.cells.map toCategoricalCell).map toCategoricalCell } : Col) = _
    rw [List.map_map]
    have : (toCategoricalCell ∘ toCategoricalCell) = toCategoricalCell := by
      funext x
      exact toCategoricalCell_idem x
    rw [this]
  · rw [nutriscoreCol_skip hn, nutriscoreCol_skip hn]

theorem numclean_cell_idem (x : Cell) :
    negClipCell (toNumericCell (negClipCell (toNumericCell x)))
      = negClipCell (toNumericCell x) := by
  have hnum : ∀ q : ℚ, negClipCell (toNumericCell (negClipCell (Cell.num q)))
      = negClipCell (Cell.num q) := by
    intro q
    by_cases hq : q < 0
    · simp [negClipCell, toNumericCell, hq]
    · simp [negClipCell, toNumericCell, hq]
  cases x with
  | num q => exact hnum q
  | null => rfl
  | list l => rfl
  | str s =>
    show negClipCell (toNumericCell (negClipCell (toNumericCell (Cell.str s)))) = _
    cases hp : parseDecimal s with
    | none => simp [toNumericCell, hp, negClipCell]
    | some q =>
      have ht : toNumericCell (Cell.str s) = Cell.num q := by
        simp [toNumericCell, hp]
      rw [ht]
      exact hnum q

theorem flattenListCell_idem (x : Cell) :
    flattenListCell (flattenListCell x) = flattenListCell x := by
  cases x <;> rfl

theorem flattenListCol_idem (c : Col) :
    flattenListCol (flattenListCol c) = flattenListCol c := by
  by_cases hn : c.name ∈ list_cols
  · have h1 : flattenListCol c = { c with dtype := .object, cells := c.cells.map flattenListCell } := by
      unfold flattenListCol
      rw [if_pos hn]
    rw [h1]
    unfold flattenListCol
    rw [if_pos hn]
    show ({ c with dtype := .object, cells := (c.cells.map flattenListCell).map flattenListCell } : Col) = _
    rw [List.map_map]
    have : (flattenListCell ∘ flattenListCell) = flattenListCell := by
      funext x
      exact flattenListCell_idem x
    rw [this]
  · rw [flattenListCol_skip hn, flattenListCol_skip hn]



/-- C3 (amended): `clean_dataframe` as a whole is NOT idempotent (see the
counterexample `clean_not_idempotent`: NaNs produced by numerically coercing a
text-typed nutritional column get median/zero-filled on a second pass).  What
holds is rule-level idempotence: each cleaning rule applied to its own output
leaves it unchanged — dedup-by-code (on a length-consistent frame), the text
fill, the numeric median fill, text normalization, `code` string-coercion, the
categorical conversion, and numeric coercion with negative clipping, and list
flattening; the outlier-clipping step is exempt since it recomputes mean/std
on its own output. -/
theorem clean_rules_idempotent :
    (∀ df df1 : DF, (∀ c ∈ df.cols, c.cells.length = df.nrows) →
        dropDuplicatesByCode df = .ok df1 → dropDuplicatesByCode df1 = .ok df1)
    ∧ (∀ c : Col, fillTextCol (fillTextCol c) = fillTextCol c)
    ∧ (∀ c : Col, fillNumCol (fillNumCol c) = fillNumCol c)
    ∧ (∀ c : Col, normalizeTextCol (normalizeTextCol c) = normalizeTextCol c)
    ∧ (∀ c : Col, codeToStrCol (codeToStrCol c) = codeToStrCol c)
    ∧ (∀ c : Col, nutriscoreCol (nutriscoreCol c) = nutriscoreCol c)
    ∧ (∀ x : Cell, negClipCell (toNumericCell (negClipCell (toNumericCell x)))
        = negClipCell (toNumericCell x))
    ∧ (∀ c : Col, flattenListCol (flattenListCol c) = flattenListCol c) :=
  ⟨fun _ _ hwf h => dedup_idem hwf h, fillTextCol_idem, fillNumCol_idem,
    normalizeTextCol_idem, codeToStrCol_idem, nutriscoreCol_idem, numclean_cell_idem,
    flattenListCol_idem⟩

/-- C3 witness: the dedup conjunct applied to a concrete frame. -/
theorem clean_rules_idempotent_witness :
    dropDuplicatesByCode C3dedupOut = .ok C3dedupOut :=
  clean_rules_idempotent.1 C3dupdf C3dedupOut (by decide) (by decide)

/-- C3 counterexample: cleaning `C3df` turns the text "abc" of the
nutritional column `energy_100g` into NaN (numeric coercion of a text-typed
column); re-cleaning fills that NaN with 0 (all-null numeric column), so
`clean (clean T)` differs from `clean T`.  The outlier rule is vacuous here
(fewer than two non-null values), so the choice of `sigma` is immaterial. -/
theorem clean_not_idempotent :
    (clean_dataframe (fun _ => 0) C3df).bind (clean_dataframe (fun _ => 0))
      ≠ clean_dataframe (fun _ => 0) C3df
    ∧ C3df.wf := by
  constructor
  · decide
  · decide

/-- C7 counterexample: a non-empty table without a `code` column makes
`clean_dataframe` raise `KeyError` at `drop_duplicates(subset=["code"])`, so
"clean never fails, even for tables missing expected columns" is false on the
code. -/
theorem clean_missing_code_raises :
    clean_dataframe (fun _ => 0) C7df = .error .keyError ∧ C7df.empty = false := by
  constructor
  · decide
  · decide

/-- C7 witness: the theorem applied to a concrete table with a `code` column. -/
theorem clean_total_spec_witness :
    ∃ out, clean_dataframe (fun _ => 0) C7okdf = .ok out :=
  (clean_total_spec (fun _ => 0) C7okdf (by decide) (by decide)).1

/-! ### The cleaning invariant (claim C2) -/

theorem eq_of_name_nodup {cols : List Col} (h : (cols.map Col.name).Nodup)
    {a b : Col} (ha : a ∈ cols) (hb : b ∈ cols) (hn : a.name = b.name) : a = b := by
  induction cols with
  | nil => cases ha
  | cons c rest ih =>
    rw [List.map_cons, List.nodup_cons] at h
    rcases List.mem_cons.mp ha with rfl | ha2
    · rcases List.mem_cons.mp hb with rfl | hb2
      · rfl
      · exact absurd (hn ▸ List.mem_map_of_mem Col.name hb2) h.1
    · rcases List.mem_cons.mp hb with rfl | hb2
      · exact absurd (hn ▸ List.mem_map_of_mem Col.name ha2) h.1
      · exact ih h.2 ha2 hb2

theorem fillTextCell_of_str {x : Cell} (h : x.isStr = true) : fillTextCell x = x := by
  cases x <;> simp_all [fillTextCell, Cell.isStr]

theorem pyStr_of_str {x : Cell} (h : x.isStr = true) : Cell.str (pyStr x) = x := by
  cases x <;> simp_all [pyStr, Cell.isStr]

/-- On a string-typed (object) `code` column holding only strings, the
columnwise steps 2-6 act as the identity. -/
theorem cleanColSteps_code_fix {sigma : ℚ → ℚ} {col : Col}
    (hname : col.name = "code") (hdtype : col.dtype = .object)
    (hstr : ∀ x ∈ col.cells, x.isStr = true) :
    cleanColSteps sigma col = col := by
  have h1 : fillTextCol col = col := by
    unfold fillTextCol
    rw [if_pos hdtype]
    have : col.cells.map fillTextCell = col.cells.map id :=
      List.map_congr_left (fun x hx => fillTextCell_of_str (hstr x hx))
    rw [this, List.map_id]
  have h2 : fillNumCol col = col := fillNumCol_skip (by rw [hdtype]; simp)
  have h3 : normalizeTextCol col = col := normalizeTextCol_skip (by rw [hname]; decide)
  have h4 : codeToStrCol col = col := by
    unfold codeToStrCol
    rw [if_pos hname]
    have : (col.cells.map fun x => Cell.str (pyStr x)) = col.cells.map id :=
      List.map_congr_left (fun x hx => pyStr_of_str (hstr x hx))
    rw [this, List.map_id, ← hdtype]
  have h5 : nutriscoreCol col = col := nutriscoreCol_skip (by rw [hname]; decide)
  have h6 : cleanNumericCol sigma col = col := cleanNumericCol_skip (by rw [hname]; decide)
  have h7 : flattenListCol col = col := flattenListCol_skip (by rw [hname]; decide)
  unfold cleanColSteps
  rw [h1, h2, h3, h4, h5, h6, h7]

theorem fillTextCell_ne_null (x : Cell) : ¬ fillTextCell x = .null := by
  cases x <;> simp [fillTextCell]

theorem fillTextCol_dtype_eq (c : Col) : (fillTextCol c).dtype = c.dtype :=
  fillTextCol_dtype c

/-- After the two fill rules, an object- or numeric-typed column has no null
cells. -/
theorem fills_no_null {c : Col} (hd : c.dtype = .object ∨ c.dtype = .numeric) :
    ∀ x ∈ (fillNumCol (fillTextCol c)).cells, ¬ x = .null := by
  rcases hd with hd | hd
  · rw [fillNumCol_skip (by rw [fillTextCol_dtype, hd]; simp)]
    unfold fillTextCol
    rw [if_pos hd]
    intro x hx
    obtain ⟨y, _, hxy⟩ := List.mem_map.mp hx
    rw [← hxy]
    exact fillTextCell_ne_null y
  · rw [fillTextCol_skip (by rw [hd]; simp)]
    unfold fillNumCol
    rw [if_pos hd]
    exact fillNumCells_no_null c.cells

theorem normalizeTextCol_no_null {c : Col} (h : ∀ x ∈ c.cells, ¬ x = .null) :
    ∀ x ∈ (normalizeTextCol c).cells, ¬ x = .null := by
  unfold normalizeTextCol
  split
  · intro x hx
    obtain ⟨y, _, hxy⟩ := List.mem_map.mp hx
    rw [← hxy]
    simp [normalizeCell]
  · exact h

theorem codeToStrCol_no_null {c : Col} (h : ∀ x ∈ c.cells, ¬ x = .null) :
    ∀ x ∈ (codeToStrCol c).cells, ¬ x = .null := by
  unfold codeToStrCol
  split
  · intro x hx
    obtain ⟨y, _, hxy⟩ := List.mem_map.mp hx
    rw [← hxy]
    simp
  · exact h

theorem flattenListCol_no_null {c : Col} (h : ∀ x ∈ c.cells, ¬ x = .null) :
    ∀ x ∈ (flattenListCol c).cells, ¬ x = .null := by
  unfold flattenListCol
  split
  · intro x hx
    obtain ⟨y, _, hxy⟩ := List.mem_map.mp hx
    rw [← hxy]
    cases y <;> simp [flattenListCell]
  · exact h

/-- Steps 3-6 keep a column that is neither `nutriscore_grade` nor a
nutritional column free of nulls. -/
theorem post_no_null (sigma : ℚ → ℚ) {c : Col}
    (hnut : ¬ c.name = "nutriscore_grade") (hnum : c.name ∉ numeric_cols_to_clean)
    (h : ∀ x ∈ c.cells, ¬ x = .null) :
    ∀ x ∈ (flattenListCol (cleanNumericCol sigma (nutriscoreCol (codeToStrCol
        (normalizeTextCol c))))).cells, ¬ x = .null := by
  have hn1 : (codeToStrCol (normalizeTextCol c)).name = c.name := by
    rw [codeToStrCol_name, normalizeTextCol_name]
  rw [nutriscoreCol_skip (by rw [hn1]; exact hnut)]
  rw [cleanNumericCol_skip (by rw [hn1]; exact hnum)]
  exact flattenListCol_no_null (codeToStrCol_no_null (normalizeTextCol_no_null h))

/-- C2 (amended): on a well-formed frame whose `code` column is string-typed
(object dtype, all values strings), the cleaned output has a duplicate-free
`code` column; and every input column with a fill rule (object or numeric
dtype) other than `nutriscore_grade` and the nutritional columns has no null
entry in the output.  The exclusions are forced by the code (see the
counterexample `clean_invariant_counterexample`): `nutriscore_grade` values
outside the categorical domain — including the fill sentinel "Non renseigné",
whose case differs from the domain entry "non renseigné" — become null, text
in nutritional columns becomes null under numeric coercion, and `code` values
conflated by string conversion (e.g. a null filled with the sentinel next to
the literal sentinel string) can leave duplicates. -/
theorem clean_invariant_spec (sigma : ℚ → ℚ) (df out : DF) (hwf : df.wf)
    (hcodes : ∀ c ∈ df.cols, c.name = "code" →
      c.dtype = .object ∧ ∀ x ∈ c.cells, x.isStr = true)
    (hok : clean_dataframe sigma df = .ok out) :
    (∀ c2 ∈ out.cols, c2.name = "code" → c2.cells.Nodup)
    ∧ (∀ c ∈ df.cols, (c.dtype = .object ∨ c.dtype = .numeric) →
        ¬ c.name = "nutriscore_grade" → c.name ∉ numeric_cols_to_clean →
        ∀ c2 ∈ out.cols, c2.name = c.name → Cell.null ∉ c2.cells) := by
  obtain ⟨hlen, hnames, _⟩ := hwf
  by_cases hne : df.empty = true
  · have hout : out = df := by
      unfold clean_dataframe at hok
      rw [hne] at hok
      simp at hok
      exact hok.symm
    have hcellsnil : ∀ c2 ∈ df.cols, c2.cells = [] := by
      intro c2 hc2
      simp [DF.empty] at hne
      rcases hne with hne | hne
      · have hl2 := hlen c2 hc2
        rw [hne] at hl2
        exact List.length_eq_zero.mp hl2
      · rw [hne] at hc2
        cases hc2
    constructor
    · intro c2 hc2 _
      rw [hout] at hc2
      rw [hcellsnil c2 hc2]
      exact List.nodup_nil
    · intro c hc _ _ _ c2 hc2 _
      rw [hout] at hc2
      rw [hcellsnil c2 hc2]
      simp
  · have hne2 : df.empty = false := by simpa using hne
    obtain ⟨codeCol, hf, hl, hcols, hnrows⟩ := clean_ok_inversion hne2 hok
    have hcodeMem : codeCol ∈ df.cols := List.mem_of_find?_eq_some hf
    have hcodeName : codeCol.name = "code" := by simpa using List.find?_some hf
    obtain ⟨hcdt, hcstr⟩ := hcodes codeCol hcodeMem hcodeName
    constructor
    · intro c2 hc2 hc2name
      rw [hcols] at hc2
      obtain ⟨c, hc, hceq⟩ := List.mem_map.mp hc2
      have hcname : c.name = "code" := by
        rw [← hc2name, ← hceq, cleanColSteps_name]
        rfl
      have hcc : c = codeCol :=
        eq_of_name_nodup hnames hc hcodeMem (by rw [hcname, hcodeName])
      rw [← hceq, hcc]
      have hfix : cleanColSteps sigma (maskCol (keepFirstMask [] codeCol.cells) codeCol)
          = maskCol (keepFirstMask [] codeCol.cells) codeCol := by
        apply cleanColSteps_code_fix
        · exact hcodeName
        · exact hcdt
        · intro x hx
          exact hcstr x (applyMask_subset _ _ x hx)
      rw [hfix]
      exact (applyMask_keepFirst codeCol.cells []).1
    · intro c hc hd hnut hnum c2 hc2 hname2
      rw [hcols] at hc2
      obtain ⟨c', hc', hceq⟩ := List.mem_map.mp hc2
      have hcname : c'.name = c.name := by
        rw [← hname2, ← hceq, cleanColSteps_name]
        rfl
      have hcc : c' = c := eq_of_name_nodup hnames hc' hc hcname
      rw [← hceq, hcc]
      intro hnull
      have hd2 : (maskCol (keepFirstMask [] codeCol.cells) c).dtype = .object
          ∨ (maskCol (keepFirstMask [] codeCol.cells) c).dtype = .numeric := hd
      have h1 := fills_no_null hd2
      have hnut2 : ¬ (fillNumCol (fillTextCol (maskCol (keepFirstMask [] codeCol.cells)
          c))).name = "nutriscore_grade" := by
        rw [fillNumCol_name, fillTextCol_name]
        exact hnut
      have hnum2 : (fillNumCol (fillTextCol (maskCol (keepFirstMask [] codeCol.cells)
          c))).name ∉ numeric_cols_to_clean := by
        rw [fillNumCol_name, fillTextCol_name]
        exact hnum
      exact post_no_null sigma hnut2 hnum2 h1 Cell.null hnull rfl

/-- C2 counterexample: `C2df` is well-formed, yet after cleaning its `code`
column contains duplicate values and its `nutriscore_grade` column — an
object-typed column with a fill rule — contains a null entry. -/
theorem clean_invariant_counterexample :
    C2df.wf
    ∧ clean_dataframe (fun _ => 0) C2df = .ok C2dfCleaned
    ∧ (∀ c ∈ C2dfCleaned.cols, c.name = "code" → ¬ c.cells.Nodup)
    ∧ (∃ c ∈ C2dfCleaned.cols, c.name = "nutriscore_grade" ∧ Cell.null ∈ c.cells) := by
  refine ⟨by decide, by decide, by decide, by decide⟩

/-- C2 witness: the theorem applied to `C2okdf`. -/
theorem clean_invariant_spec_witness :
    (∀ c2 ∈ C2okdfCleaned.cols, c2.name = "code" → c2.cells.Nodup)
    ∧ (∀ c ∈ C2okdf.cols, (c.dtype = .object ∨ c.dtype = .numeric) →
        ¬ c.name = "nutriscore_grade" → c.name ∉ numeric_cols_to_clean →
        ∀ c2 ∈ C2okdfCleaned.cols, c2.name = c.name → Cell.null ∉ c2.cells) :=
  clean_invariant_spec (fun _ => 0) C2okdf C2okdfCleaned (by decide) (by decide) (by decide)


end TP2
